import Mathlib

/-
Verification of the mesh-warp image-distortion engine in
`src/lib/motions/motions.py` (Code Jam 2023, Async Aggregators).

The Python module computes, for every output pixel, a source coordinate to
sample, held in two numpy grids `xmesh`/`ymesh` of shape (height, width).
Effects perturb the grids elementwise; a final resampling pass truncates the
coordinates to integers, wraps them by modulo into the image bounds and
gathers pixels.

Modelling conventions:
  * numpy float64 arithmetic is idealised as exact real arithmetic (ℝ), and
    the all-integer code paths (spike effects over the integer base mesh,
    pure index arithmetic) are additionally available over any
    `LinearOrderedField` with a `FloorRing` so that concrete computations can
    run over ℚ by kernel reduction;
  * a numpy 2-D array is a `Grid`: its shape plus a total value function
    (only in-bounds entries are ever sampled by the code paths modelled);
  * the one place where IEEE special values matter — the unguarded division
    by `normalized_distance` in `Effect.explode`, which is 0/0 = NaN at the
    exact image centre — is tracked by an explicit predicate
    (`explode_hits_zero_division`) because Lean's total division would
    silently return 0 there;
  * Python statefulness (`self.*` assignment) is explicit state passing on
    `MotionTransformer`; fallible steps return `Except PyErr`.
-/

namespace Motions

/-- A numpy 2-D array as used by `motions.py`: a shape `(height, width)`
plus the entry at row `y`, column `x`.  Out-of-shape entries of `val` are
irrelevant: every code path modelled reads entries at `y < height`,
`x < width` only. -/
structure Grid (K : Type) where
  height : ℕ
  width : ℕ
  val : ℕ → ℕ → K

/-- The image interface the core consumes (PIL image / single-channel numpy
buffer): width, height and the pixel at row `y`, column `x`.  Channel depth
is irrelevant to the coordinate logic, so one integer per pixel. -/
structure PyImage where
  width : ℕ
  height : ℕ
  pixel : ℕ → ℕ → ℤ

/-- `astype(int)` on a numpy float array: truncation toward zero
(floor for nonnegative values, ceiling for negative ones). -/
def truncToInt {K : Type} [LinearOrderedField K] [FloorRing K] (c : K) : ℤ :=
  if 0 ≤ c then ⌊c⌋ else ⌈c⌉

/-- One resampler coordinate step from `motions.py` lines 172-173 / 206-207:
`xmesh.astype(int) % img.width` — truncate to an integer, then numpy `%`
by the (positive) image dimension, which is the mathematical mod with a
result in `[0, n)`. -/
def wrapIdx {K : Type} [LinearOrderedField K] [FloorRing K] (c : K) (n : ℕ) : ℤ :=
  truncToInt c % (n : ℤ)

/-- Python `//` (floor division) on numbers with a nonzero divisor; the
spike effects apply it to the grid width/height and to the spike distance. -/
def pyFloorDiv {K : Type} [LinearOrderedField K] [FloorRing K] (a b : K) : K :=
  (⌊a / b⌋ : ℤ)

/-- Python / numpy `%` (floor-style remainder) with a nonzero divisor:
`a - b * (a // b)`. -/
def pyMod {K : Type} [LinearOrderedField K] [FloorRing K] (a b : K) : K :=
  a - b * pyFloorDiv a b

/-- numpy remainder on an integer-dtype array with a possibly-zero integer
divisor: for `b ≠ 0` it is the mathematical mod (result in `[0, |b|)`);
for `b = 0` numpy emits a RuntimeWarning and fills in `0` — no exception
is raised. -/
def npIntMod (a b : ℤ) : ℤ :=
  if b = 0 then 0 else a % b

/-- `np.meshgrid(np.arange(w), np.arange(h), sparse=False)` from
`motions.py` lines 184-186 / 201-203: the x-grid holds the column index and
the y-grid the row index, both of shape `(h, w)` — the identity mapping. -/
def np_meshgrid (K : Type) [LinearOrderedField K] (w h : ℕ) : Grid K × Grid K :=
  (⟨h, w, fun _ x => (x : K)⟩, ⟨h, w, fun y _ => (y : K)⟩)

/-- The resampling pass of `motions.py` lines 172-175 / 206-209:
`np_img[ymesh.flatten(), xmesh.flatten()].reshape(np_img.shape)` after the
truncate-and-wrap step — output pixel `(y, x)` is the source pixel at the
wrapped coordinates of mesh entry `(y, x)` (the flatten/reshape pair is the
pointwise gather when the mesh shape equals the image shape, which holds on
every path modelled here; a size mismatch would raise in numpy). -/
def resample {K : Type} [LinearOrderedField K] [FloorRing K]
    (img : PyImage) (xmesh ymesh : Grid K) : PyImage :=
  ⟨img.width, img.height, fun y x =>
    img.pixel (wrapIdx (ymesh.val y x) img.height).toNat
      (wrapIdx (xmesh.val y x) img.width).toNat⟩

/-- Output and input agree in shape and on every in-range pixel. -/
def PixelIdentical (a b : PyImage) : Prop :=
  a.width = b.width ∧ a.height = b.height ∧
    ∀ y, y < b.height → ∀ x, x < b.width → a.pixel y x = b.pixel y x

namespace Effect

/-- `Effect.vertical_spike` (`motions.py` lines 84-100) over field-valued
grids, divisor nonzero (the float-dtype evaluation; on the integer-dtype
base mesh with a positive spike distance it computes the same values):
`spike_distance = width // spikenum`;
`offset = abs(xmesh % spike_distance - spike_distance // 2) * magnitude * 2`;
returns `(xmesh, ymesh + offset)`.  The width is read from `xmesh.shape`. -/
def vertical_spike {K : Type} [LinearOrderedField K] [FloorRing K]
    (xmesh ymesh : Grid K) (spikenum magnitude : K) : Grid K × Grid K :=
  let spike_distance : K := pyFloorDiv (xmesh.width : K) spikenum
  (xmesh, ⟨ymesh.height, ymesh.width, fun y x =>
    ymesh.val y x +
      |pyMod (xmesh.val y x) spike_distance - pyFloorDiv spike_distance 2| *
        magnitude * 2⟩)

/-- `Effect.horizontal_spike` (`motions.py` lines 102-118), as
`vertical_spike` but driven by the height and `ymesh`, offsetting `xmesh`. -/
def horizontal_spike {K : Type} [LinearOrderedField K] [FloorRing K]
    (xmesh ymesh : Grid K) (spikenum magnitude : K) : Grid K × Grid K :=
  let spike_distance : K := pyFloorDiv (xmesh.height : K) spikenum
  (⟨xmesh.height, xmesh.width, fun y x =>
    xmesh.val y x +
      |pyMod (ymesh.val y x) spike_distance - pyFloorDiv spike_distance 2| *
        magnitude * 2⟩, ymesh)

/-- `Effect.vertical_spike` as numpy evaluates it on the integer-dtype base
mesh with the integer default `spikenum` — the dtype under which a zero
spike distance arises (`width // spikenum == 0`): integer `%` by zero yields
`0` elementwise (RuntimeWarning, no exception), `spike_distance // 2` is
integer division, and multiplying the integer offset by the float magnitude
promotes the returned `ymesh` to float (ℚ here); `xmesh` is returned
untouched as an integer array. -/
def vertical_spikeInt (xmesh ymesh : Grid ℤ) (spikenum : ℕ) (magnitude : ℚ) :
    Grid ℤ × Grid ℚ :=
  let spike_distance : ℕ := xmesh.width / spikenum
  (xmesh, ⟨ymesh.height, ymesh.width, fun y x =>
    (ymesh.val y x : ℚ) +
      (|npIntMod (xmesh.val y x) spike_distance - (spike_distance / 2 : ℕ)| : ℤ) *
        magnitude * 2⟩)

/-- `Effect.horizontal_spike` on the integer-dtype base mesh, mirroring
`vertical_spikeInt` with the roles of the axes swapped. -/
def horizontal_spikeInt (xmesh ymesh : Grid ℤ) (spikenum : ℕ) (magnitude : ℚ) :
    Grid ℚ × Grid ℤ :=
  let spike_distance : ℕ := xmesh.height / spikenum
  (⟨xmesh.height, xmesh.width, fun y x =>
    (xmesh.val y x : ℚ) +
      (|npIntMod (ymesh.val y x) spike_distance - (spike_distance / 2 : ℕ)| : ℤ) *
        magnitude * 2⟩, ymesh)

/-- `Effect.vertical_wave` (`motions.py` lines 50-65): with
`height, width = xmesh.shape`,
`offset = np.sin(xmesh / width * math.pi * 2 * wavenum) * magnitude * height / 4`
and the result is `(xmesh, ymesh + offset)`.  float64 sine is idealised as
`Real.sin`. -/
noncomputable def vertical_wave (xmesh ymesh : Grid ℝ) (wavenum magnitude : ℝ) :
    Grid ℝ × Grid ℝ :=
  (xmesh, ⟨ymesh.height, ymesh.width, fun y x =>
    ymesh.val y x +
      Real.sin (xmesh.val y x / (xmesh.width : ℝ) * Real.pi * 2 * wavenum) *
        magnitude * (xmesh.height : ℝ) / 4⟩)

/-- `Effect.horizontal_wave` (`motions.py` lines 67-82): the sine runs over
`ymesh / height` and the offset is added to `xmesh`, scaled by `width / 4`. -/
noncomputable def horizontal_wave (xmesh ymesh : Grid ℝ) (wavenum magnitude : ℝ) :
    Grid ℝ × Grid ℝ :=
  (⟨xmesh.height, xmesh.width, fun y x =>
    xmesh.val y x +
      Real.sin (ymesh.val y x / (xmesh.height : ℝ) * Real.pi * 2 * wavenum) *
        magnitude * (xmesh.width : ℝ) / 4⟩, ymesh)

/-- `normalized_distance` from `Effect.explode` (`motions.py` lines 40-42)
at one mesh entry: `((x/width - 0.5)**2 + (y/height - 0.5)**2) ** 0.5`;
the base is a sum of squares, so `** 0.5` is the real square root. -/
noncomputable def normalized_distance (w h : ℕ) (xv yv : ℝ) : ℝ :=
  Real.sqrt ((xv / (w : ℝ) - 0.5) ^ 2 + (yv / (h : ℝ) - 0.5) ^ 2)

/-- `new_distance` from `Effect.explode` (`motions.py` lines 43-45) at one
mesh entry:
`normalized_distance / (np.maximum((1 - normalized_distance) * 3 * magnitude, 1) + 0.1)`;
the divisor is at least `1.1`, so this division is always defined. -/
noncomputable def new_distance (w h : ℕ) (magnitude xv yv : ℝ) : ℝ :=
  normalized_distance w h xv yv /
    (max ((1 - normalized_distance w h xv yv) * 3 * magnitude) 1 + 0.1)

/-- `Effect.explode` (`motions.py` lines 27-48):
`xmesh = (xmesh - width/2) * new_distance / normalized_distance + width/2`
and analogously for `ymesh` with the height.  CAUTION: at a mesh entry where
`normalized_distance = 0` (the exact image centre) the division here is the
IEEE operation `0/0`, which numpy evaluates to NaN and which nothing in the
source guards; Lean's total division returns `0` there instead, so the NaN
entries are tracked separately by `explode_hits_zero_division` and no
theorem below relies on this definition's value at such an entry. -/
noncomputable def explode (xmesh ymesh : Grid ℝ) (magnitude : ℝ) :
    Grid ℝ × Grid ℝ :=
  (⟨xmesh.height, xmesh.width, fun y x =>
      (xmesh.val y x - (xmesh.width : ℝ) / 2) *
          new_distance xmesh.width xmesh.height magnitude (xmesh.val y x) (ymesh.val y x) /
          normalized_distance xmesh.width xmesh.height (xmesh.val y x) (ymesh.val y x) +
        (xmesh.width : ℝ) / 2⟩,
   ⟨xmesh.height, xmesh.width, fun y x =>
      (ymesh.val y x - (xmesh.height : ℝ) / 2) *
          new_distance xmesh.width xmesh.height magnitude (xmesh.val y x) (ymesh.val y x) /
          normalized_distance xmesh.width xmesh.height (xmesh.val y x) (ymesh.val y x) +
        (xmesh.height : ℝ) / 2⟩)

end Effect

/-- Holds when the two divisions of `Effect.explode` (`motions.py` lines
46-47) have a zero divisor at the mesh entry with values `(xv, yv)` on a
`w × h` grid.  There the numerators are also zero (a vanishing normalized
distance forces `xv = w/2` and `yv = h/2`), so numpy computes the IEEE
quotient `0/0 = NaN` for both output coordinates; the source contains no
guard against it. -/
def explode_hits_zero_division (w h : ℕ) (xv yv : ℝ) : Prop :=
  Effect.normalized_distance w h xv yv = 0

/-- A Python effect callable of `motions.py` under its two call sites.
`kwCall` is its meaning under `func(xmesh=•, ymesh=•, magnitude=•)`
(`transform`, line 205): the per-call scalar is bound to the parameter
named `magnitude` and the other defaulted parameters keep their defaults.
`posCall` is its meaning under `func(•, •, •)`
(`Motion_Transformer.calculate_output`, line 171): the per-call scalar is
bound to the *third positional* parameter — which for the wave and spike
effects is `wavenum` / `spikenum`, leaving `magnitude` at its default `1`. -/
structure PyEffectFn (K : Type) where
  kwCall : Grid K → Grid K → K → Grid K × Grid K
  posCall : Grid K → Grid K → K → Grid K × Grid K

/-- `Effect.horizontal_wave` as a callable: signature
`(xmesh, ymesh, wavenum=1.5, magnitude=1)`, so the keyword call fixes
`wavenum = 1.5` and the positional call binds the scalar to `wavenum` with
`magnitude = 1`. -/
noncomputable def horizontal_waveFn : PyEffectFn ℝ :=
  ⟨fun xm ym m => Effect.horizontal_wave xm ym 1.5 m,
   fun xm ym v => Effect.horizontal_wave xm ym v 1⟩

/-- `Effect.vertical_wave` as a callable (signature
`(xmesh, ymesh, wavenum=1.5, magnitude=1)`). -/
noncomputable def vertical_waveFn : PyEffectFn ℝ :=
  ⟨fun xm ym m => Effect.vertical_wave xm ym 1.5 m,
   fun xm ym v => Effect.vertical_wave xm ym v 1⟩

/-- `Effect.horizontal_spike` as a callable (signature
`(xmesh, ymesh, spikenum=5, magnitude=1)`). -/
def horizontal_spikeFn (K : Type) [LinearOrderedField K] [FloorRing K] :
    PyEffectFn K :=
  ⟨fun xm ym m => Effect.horizontal_spike xm ym 5 m,
   fun xm ym v => Effect.horizontal_spike xm ym v 1⟩

/-- `Effect.vertical_spike` as a callable (signature
`(xmesh, ymesh, spikenum=5, magnitude=1)`). -/
def vertical_spikeFn (K : Type) [LinearOrderedField K] [FloorRing K] :
    PyEffectFn K :=
  ⟨fun xm ym m => Effect.vertical_spike xm ym 5 m,
   fun xm ym v => Effect.vertical_spike xm ym v 1⟩

/-- `Effect.explode` as a callable: its signature
`(xmesh, ymesh, magnitude=1)` has `magnitude` as the third positional
parameter, so both call conventions coincide. -/
noncomputable def explodeFn : PyEffectFn ℝ :=
  ⟨fun xm ym m => Effect.explode xm ym m,
   fun xm ym m => Effect.explode xm ym m⟩

/-- The default `funclist` of `Motion_Transformer.__init__`
(`motions.py` lines 129-133):
`(Effect.horizontal_wave, Effect.horizontal_spike, Effect.vertical_wave)`. -/
noncomputable def defaultFunclist : List (PyEffectFn ℝ) :=
  [horizontal_waveFn, horizontal_spikeFn ℝ, vertical_waveFn]

/-- The exceptions the modelled code can raise. -/
inductive PyErr where
  | attributeError : PyErr
deriving DecidableEq

/-- The attribute access `img.shape` performed by
`Motion_Transformer.update_image` (`motions.py` line 158).  A
`PIL.Image.Image` exposes `size`, `width` and `height` but has no attribute
`shape`, so this access raises `AttributeError`. -/
def PyImage.getShape (_ : PyImage) : Except PyErr (ℕ × ℕ) :=
  .error .attributeError

/-- The fields of `Motion_Transformer` (`motions.py` lines 121-149):
the bound image, the effect list, the two mesh grids and the cache dict
(reset to `{}`, never populated; its entries are irrelevant, so a bare
list stands in for it).  The `interpolation` / `fill_method` enum fields
are bound once in `__init__` and never read by any code path, so they are
omitted from the state. -/
structure MotionTransformer (K : Type) where
  img : PyImage
  funclist : List (PyEffectFn K)
  xmesh : Grid K
  ymesh : Grid K
  cache : List ℤ

/-- `Motion_Transformer._generate_mesh` (`motions.py` lines 178-187).
NOTE: the source builds the mesh from `img.width` / `img.height` where
`img` is the *module-global* name (bound only inside the `__main__` block),
not `self.img`; that global is passed here explicitly as `gimg`.  Also
resets the cache (line 187 via `reset_cache`, lines 143-149). -/
def generate_mesh {K : Type} [LinearOrderedField K]
    (st : MotionTransformer K) (gimg : PyImage) : MotionTransformer K :=
  ⟨st.img, st.funclist, (np_meshgrid K gimg.width gimg.height).1,
    (np_meshgrid K gimg.width gimg.height).2, []⟩

/-- `Motion_Transformer.__init__` (`motions.py` lines 124-141): binds the
image and the funclist, then calls `_generate_mesh`, which reads the
module-global image `gimg` (not the bound one).  The mesh fields have no
value before `_generate_mesh` runs; the placeholder empty grids passed to
`generate_mesh` below are immediately overwritten. -/
def mk_Motion_Transformer {K : Type} [LinearOrderedField K]
    (img : PyImage) (funclist : List (PyEffectFn K)) (gimg : PyImage) :
    MotionTransformer K :=
  generate_mesh ⟨img, funclist, ⟨0, 0, fun _ _ => 0⟩, ⟨0, 0, fun _ _ => 0⟩, []⟩ gimg

/-- `Motion_Transformer.update_image` (`motions.py` lines 151-160).  The
guard `img.shape != self.img.shape` evaluates `img.shape` on the new image
first; `PIL.Image.Image` has no `shape` attribute, so the access raises
(see `PyImage.getShape`) and the rest of the method — conditional mesh
regeneration from the module-global `gimg` and the rebinding of
`self.img` — is unreachable. -/
def update_image {K : Type} [LinearOrderedField K]
    (st : MotionTransformer K) (gimg newImg : PyImage) :
    Except PyErr (MotionTransformer K) := do
  let s1 ← newImg.getShape
  let s2 ← st.img.getShape
  let st1 := if s1 ≠ s2 then generate_mesh st gimg else st
  pure ⟨newImg, st1.funclist, st1.xmesh, st1.ymesh, st1.cache⟩

/-- `Motion_Transformer.calculate_output` (`motions.py` lines 162-176):
starts from the stored meshes, folds the zipped funclist/magnitude pairs
with the *positional* call `func(xmesh, ymesh, magnitude)` (line 171), then
resamples.  Lines 172-175 read the module-global `img` — passed explicitly
as `gimg` — for the wrap dimensions and the pixel buffer, not `self.img`.
The method assigns only local names, so the returned state is the input
state. -/
def calculate_output {K : Type} [LinearOrderedField K] [FloorRing K]
    (st : MotionTransformer K) (gimg : PyImage) (magnitudelist : List K) :
    MotionTransformer K × PyImage :=
  let final := (st.funclist.zip magnitudelist).foldl
    (fun p fm => fm.1.posCall p.1 p.2 fm.2) (st.xmesh, st.ymesh)
  (st, resample gimg final.1 final.2)

/-- The free function `transform` (`motions.py` lines 190-210): builds the
identity mesh from the image's own dimensions, folds the zipped
funclist/magnitude pairs with the *keyword* call
`func(xmesh=xmesh, ymesh=ymesh, magnitude=magnitude)` (line 205), and
resamples against the image it was given. -/
def transform {K : Type} [LinearOrderedField K] [FloorRing K]
    (img : PyImage) (funclist : List (PyEffectFn K)) (magnitudelist : List K) :
    PyImage :=
  let mz := np_meshgrid K img.width img.height
  let final := (funclist.zip magnitudelist).foldl
    (fun p fm => fm.1.kwCall p.1 p.2 fm.2) mz
  resample img final.1 final.2

/-- The `calculate_output` behaviour that claim C1 (and spec §4.4) describes,
for comparison with the source's `calculate_output`: the i-th effect is
applied with the i-th magnitude bound to its `magnitude` parameter (the
keyword convention, as the free function `transform` does) while `wavenum` /
`spikenum` keep their per-pipeline defaults; everything else — stored
meshes, module-global image — is as in the source method. -/
noncomputable def calculate_output_claimed (st : MotionTransformer ℝ) (gimg : PyImage)
    (magnitudelist : List ℝ) : PyImage :=
  let final := (st.funclist.zip magnitudelist).foldl
    (fun p fm => fm.1.kwCall p.1 p.2 fm.2) (st.xmesh, st.ymesh)
  resample gimg final.1 final.2

theorem truncToInt_natCast {K : Type} [LinearOrderedField K] [FloorRing K] (x : ℕ) :
    truncToInt ((x : K)) = (x : ℤ) := by
  rw [truncToInt, if_pos (by positivity)]
  exact_mod_cast Int.floor_natCast (α := K) x

theorem wrapIdx_natCast {K : Type} [LinearOrderedField K] [FloorRing K] (x w : ℕ)
    (h : x < w) : wrapIdx ((x : K)) w = (x : ℤ) := by
  rw [wrapIdx, truncToInt_natCast, Int.emod_eq_of_lt (by positivity) (by exact_mod_cast h)]

theorem foldl_posCall_eq_foldl_kwCall {K : Type} [LinearOrderedField K]
    (l : List (PyEffectFn K × K)) (h : ∀ q ∈ l, q.1.posCall = q.1.kwCall) :
    ∀ p, l.foldl (fun p fm => fm.1.posCall p.1 p.2 fm.2) p
      = l.foldl (fun p fm => fm.1.kwCall p.1 p.2 fm.2) p := by
  induction l with
  | nil => intro p; rfl
  | cons a t ih =>
    intro p
    rw [List.foldl_cons, List.foldl_cons, h a (List.mem_cons_self a t),
      ih (fun q hq => h q (List.mem_cons_of_mem a hq))]

/-- Claim C3 (code_bug evidence).  `_generate_mesh` builds the mesh from the
module-global image, not from the bound one: for every bound image `b`,
global image `g` and funclist, the constructed transformer's mesh has shape
`(g.height, g.width)`; concretely, constructing on a bound 5×4 image while
the module-global image is 3×2 yields a 2×3 mesh, which differs from the
bound image's `(height, width) = (4, 5)` — the claimed invariant "mesh shape
equals the currently bound image's dimensions" fails at construction (and
`update_image` raises before ever regenerating, see C4). -/
theorem mesh_shape_follows_global_image :
    (∀ (b g : PyImage) (fl : List (PyEffectFn ℚ)),
      (mk_Motion_Transformer b fl g).xmesh.height = g.height ∧
      (mk_Motion_Transformer b fl g).xmesh.width = g.width ∧
      (mk_Motion_Transformer b fl g).ymesh.height = g.height ∧
      (mk_Motion_Transformer b fl g).ymesh.width = g.width) ∧
    ((mk_Motion_Transformer (K := ℚ) ⟨5, 4, fun _ _ => 0⟩ []
        ⟨3, 2, fun _ _ => 0⟩).xmesh.height = 2 ∧
      (mk_Motion_Transformer (K := ℚ) ⟨5, 4, fun _ _ => 0⟩ []
        ⟨3, 2, fun _ _ => 0⟩).xmesh.width = 3 ∧
      ¬((2 : ℕ) = 4 ∧ (3 : ℕ) = 5)) := by
  exact ⟨fun b g fl => ⟨rfl, rfl, rfl, rfl⟩, rfl, rfl, by decide⟩

/-- Claim C4 (code_bug evidence).  `update_image` evaluates `img.shape` on a
`PIL.Image.Image`, which has no `shape` attribute, so every call raises
`AttributeError` — it never completes, never rebinds the image and never
regenerates the mesh. -/
theorem update_image_raises_attributeError :
    ∀ (st : MotionTransformer ℚ) (gimg newImg : PyImage),
      update_image st gimg newImg = Except.error PyErr.attributeError :=
  fun _ _ _ => rfl

/-- Claim C5 (code_bug evidence).  At the base-mesh entry `(y, x) = (1, 1)`
of a 2×2 image — the exact image centre — `normalized_distance` is `0`, so
the divisions of `Effect.explode` are the unguarded IEEE operation
`0/0 = NaN`: the returned coordinates at the degenerate point are NaN, not
finite, and the NaN propagates into the resampler. -/
theorem explode_unguarded_zero_division_at_center :
    explode_hits_zero_division 2 2 ((np_meshgrid ℝ 2 2).1.val 1 1)
      ((np_meshgrid ℝ 2 2).2.val 1 1) := by
  rw [explode_hits_zero_division, np_meshgrid, Effect.normalized_distance]
  norm_num

/-- Claim C6.  The spike effects are total on integer-dtype grids for all
positive shapes, including those whose width (for `vertical_spike`) or
height (for `horizontal_spike`) is smaller than the default `spikenum = 5`:
there `spike_distance = 0`, numpy's integer remainder by zero yields `0`
elementwise (a RuntimeWarning, not an exception), the offset collapses to
`|0 - 0| * magnitude * 2 = 0`, and the effect returns the input meshes
unchanged. -/
theorem spike_effects_total_with_zero_spike_distance :
    (∀ (xm ym : Grid ℤ) (m : ℚ), 1 ≤ xm.width → xm.width < 5 →
      (Effect.vertical_spikeInt xm ym 5 m).1 = xm ∧
      ∀ y x, (Effect.vertical_spikeInt xm ym 5 m).2.val y x = (ym.val y x : ℚ)) ∧
    (∀ (xm ym : Grid ℤ) (m : ℚ), 1 ≤ xm.height → xm.height < 5 →
      (Effect.horizontal_spikeInt xm ym 5 m).2 = ym ∧
      ∀ y x, (Effect.horizontal_spikeInt xm ym 5 m).1.val y x = (xm.val y x : ℚ)) := by
  constructor
  · intro xm ym m _ hw
    refine ⟨rfl, fun y x => ?_⟩
    simp [Effect.vertical_spikeInt, Nat.div_eq_of_lt hw, npIntMod]
  · intro xm ym m _ hh
    refine ⟨rfl, fun y x => ?_⟩
    simp [Effect.horizontal_spikeInt, Nat.div_eq_of_lt hh, npIntMod]

/-- Witness for C6: a 1×3 integer base mesh (width 3 < 5) with magnitude 7
passes both hypotheses and the effect leaves it unchanged. -/
theorem spike_effects_total_with_zero_spike_distance_witness :
    (1 ≤ (3 : ℕ) ∧ (3 : ℕ) < 5) ∧
    ((Effect.vertical_spikeInt ⟨1, 3, fun _ x => (x : ℤ)⟩ ⟨1, 3, fun y _ => (y : ℤ)⟩ 5 7).1
        = ⟨1, 3, fun _ x => (x : ℤ)⟩ ∧
      ∀ y x, (Effect.vertical_spikeInt ⟨1, 3, fun _ x => (x : ℤ)⟩
          ⟨1, 3, fun y _ => (y : ℤ)⟩ 5 7).2.val y x = ((y : ℤ) : ℚ)) :=
  ⟨⟨by decide, by decide⟩,
    spike_effects_total_with_zero_spike_distance.1 ⟨1, 3, fun _ x => (x : ℤ)⟩
      ⟨1, 3, fun y _ => (y : ℤ)⟩ 7 (by decide) (by decide)⟩

/-- Claim C7.  The resampler (`resample`, from `motions.py` lines 172-175 /
206-209) samples `img.pixel` exactly at the truncated-and-wrapped
coordinates, and for a positive dimension `n` the wrapped index `wrapIdx c n`
lies in `[0, n)` for every finite coordinate `c`; in particular a coordinate
exactly equal to the dimension wraps to index `0`. -/
theorem resampler_wrap_bounds {K : Type} [LinearOrderedField K] [FloorRing K]
    (c : K) (n : ℕ) (hn : 0 < n) :
    (0 ≤ wrapIdx c n ∧ wrapIdx c n < n) ∧
    wrapIdx ((n : K)) n = 0 ∧
    (∀ (img : PyImage) (xm ym : Grid K) (y x : ℕ),
      (resample img xm ym).pixel y x
        = img.pixel (wrapIdx (ym.val y x) img.height).toNat
            (wrapIdx (xm.val y x) img.width).toNat) := by
  have hn' : ((n : ℤ)) ≠ 0 := by exact_mod_cast hn.ne'
  refine ⟨⟨Int.emod_nonneg _ hn', Int.emod_lt_of_pos _ (by exact_mod_cast hn)⟩, ?_, ?_⟩
  · rw [wrapIdx, truncToInt_natCast, Int.emod_self]
  · intro img xm ym y x
    rfl

/-- Witness for C7 at `K = ℚ`, coordinate `-7`, dimension `3`: the wrapped
index is in range and coordinate `3` wraps to `0`. -/
theorem resampler_wrap_bounds_witness :
    (0 < 3) ∧ (0 ≤ wrapIdx (-7 : ℚ) 3 ∧ wrapIdx (-7 : ℚ) 3 < 3) ∧
      wrapIdx ((3 : ℕ) : ℚ) 3 = 0 :=
  ⟨by decide, (resampler_wrap_bounds (-7 : ℚ) 3 (by decide)).1,
    (resampler_wrap_bounds (-7 : ℚ) 3 (by decide)).2.1⟩

/-- Claim C9.  `calculate_output` assigns only local names: the transformer
state (bound image, stored base meshes, funclist, cache) is returned
unchanged, each invocation folds the effects starting from the stored base
meshes `st.xmesh` / `st.ymesh`, and a second call on the post-call state
returns the same output image. -/
theorem calculate_output_preserves_state_and_is_repeatable :
    ∀ (st : MotionTransformer ℝ) (gimg : PyImage) (mags : List ℝ),
      (calculate_output st gimg mags).1 = st ∧
      (calculate_output st gimg mags).1.img = st.img ∧
      (calculate_output st gimg mags).1.xmesh = st.xmesh ∧
      (calculate_output st gimg mags).1.ymesh = st.ymesh ∧
      (calculate_output ((calculate_output st gimg mags).1) gimg mags).2
        = (calculate_output st gimg mags).2 :=
  fun _ _ _ => ⟨rfl, rfl, rfl, rfl, rfl⟩

/-- A 10×10 single-channel test image with a distinct value per pixel. -/
def testImage10 : PyImage := ⟨10, 10, fun y x => 10 * (y : ℤ) + (x : ℤ)⟩

/-- A 4×4 single-channel test image with a distinct value per pixel
(the spec §8 scenario image). -/
def testImage4 : PyImage := ⟨4, 4, fun y x => 4 * (y : ℤ) + (x : ℤ)⟩

/-- Claim C1 (code_bug evidence).  On a 10×10 image with pixel values
`10*y + x`, the default funclist and magnitudes `[0, 2, 0]`: the source's
`calculate_output` — whose line 171 passes the magnitude as the *third
positional* argument, landing on `wavenum` / `spikenum` with `magnitude`
left at its default `1` — produces pixel `12` at `(y, x) = (1, 0)` (the
spike ran with `spikenum = 2, magnitude = 1`), whereas the behaviour the
claim describes (magnitude keyword-bound, `wavenum = 1.5` / `spikenum = 5`
fixed) produces pixel `10` (the untouched source pixel). -/
theorem calculate_output_binds_magnitude_to_wavenum_slot :
    ((calculate_output (mk_Motion_Transformer testImage10 defaultFunclist testImage10)
        testImage10 [(0 : ℝ), 2, 0]).2).pixel 1 0 = 12 ∧
    (calculate_output_claimed (mk_Motion_Transformer testImage10 defaultFunclist testImage10)
        testImage10 [(0 : ℝ), 2, 0]).pixel 1 0 = 10 := by
  constructor
  · simp only [calculate_output, mk_Motion_Transformer, generate_mesh, resample, np_meshgrid,
      testImage10, defaultFunclist, horizontal_waveFn, horizontal_spikeFn, vertical_waveFn,
      Effect.horizontal_wave, Effect.horizontal_spike, Effect.vertical_wave,
      List.zip, List.zipWith, List.foldl, pyFloorDiv, pyMod, wrapIdx, truncToInt]
    norm_num [Real.sin_zero, Int.floor_eq_iff]
  · simp only [calculate_output_claimed, mk_Motion_Transformer, generate_mesh, resample,
      np_meshgrid, testImage10, defaultFunclist, horizontal_waveFn, horizontal_spikeFn,
      vertical_waveFn, Effect.horizontal_wave, Effect.horizontal_spike, Effect.vertical_wave,
      List.zip, List.zipWith, List.foldl, pyFloorDiv, pyMod, wrapIdx, truncToInt]
    norm_num [Real.sin_zero, Int.floor_eq_iff]

/-- Claim C2, amended part: for the four wave/spike effects, magnitude 0
makes the offset a multiple of 0, the mesh stays the identity grid, and
resampling returns every in-range pixel unchanged — for every image. -/
theorem zero_magnitude_identity_except_explode (img : PyImage) :
    PixelIdentical (transform img [horizontal_waveFn] [0]) img ∧
    PixelIdentical (transform img [vertical_waveFn] [0]) img ∧
    PixelIdentical (transform img [horizontal_spikeFn ℝ] [0]) img ∧
    PixelIdentical (transform img [vertical_spikeFn ℝ] [0]) img := by
  refine ⟨⟨rfl, rfl, fun y hy x hx => ?_⟩, ⟨rfl, rfl, fun y hy x hx => ?_⟩,
    ⟨rfl, rfl, fun y hy x hx => ?_⟩, ⟨rfl, rfl, fun y hy x hx => ?_⟩⟩ <;>
    · simp only [transform, resample, np_meshgrid, horizontal_waveFn, vertical_waveFn,
        horizontal_spikeFn, vertical_spikeFn, Effect.horizontal_wave, Effect.vertical_wave,
        Effect.horizontal_spike, Effect.vertical_spike,
        List.zip, List.zipWith, List.foldl, mul_zero, zero_mul, zero_div, add_zero]
      rw [wrapIdx_natCast y img.height hy, wrapIdx_natCast x img.width hx]
      simp

/-- Claim C2, counterexample part: `Effect.explode` at magnitude 0 is *not*
the identity — its divisor `max((1-d)*3*0, 1) + 0.1 = 1.1` contracts every
off-centre coordinate toward the image centre by the factor `1/1.1`.  On the
4×4 distinct-pixel image, output pixel `(0, 3)` is gathered from source
column `⌊2 + 1/1.1⌋ = 2` instead of `3`, so the output is not
pixel-identical to the input. -/
theorem explode_zero_magnitude_not_identity :
    (transform testImage4 [explodeFn] [(0 : ℝ)]).pixel 0 3 = 2 ∧
    testImage4.pixel 0 3 = 3 ∧
    ¬ PixelIdentical (transform testImage4 [explodeFn] [(0 : ℝ)]) testImage4 := by
  have h1 : (transform testImage4 [explodeFn] [(0 : ℝ)]).pixel 0 3 = 2 := by
    have hd0 : Effect.normalized_distance 4 4 3 0 = Real.sqrt (5 / 16) := by
      rw [Effect.normalized_distance]
      norm_num
    have hdpos : (0 : ℝ) < Effect.normalized_distance 4 4 3 0 := by
      rw [hd0]
      positivity
    have hd : Effect.normalized_distance 4 4 3 0 ≠ 0 := ne_of_gt hdpos
    simp only [transform, resample, np_meshgrid, testImage4, explodeFn, Effect.explode,
      Effect.new_distance, List.zip, List.zipWith, List.foldl, wrapIdx, truncToInt]
    norm_num
    rw [show Effect.normalized_distance 4 4 3 0 / (11 / 10) / Effect.normalized_distance 4 4 3 0
        = 10 / 11 by field_simp; ring]
    rw [show -(2 * (Effect.normalized_distance 4 4 3 0 / (11 / 10)))
          / Effect.normalized_distance 4 4 3 0
        = -(20 / 11) by field_simp; ring]
    norm_num [Int.floor_eq_iff]
  refine ⟨h1, by norm_num [testImage4], fun hp => ?_⟩
  have h2 := hp.2.2 0 (by norm_num [testImage4]) 3 (by norm_num [testImage4])
  rw [h1] at h2
  norm_num [testImage4] at h2

/-- The pipeline entry `vertical_spike(spikenum=2)` of the spec §8 scenario:
the keyword call of `transform` binds the per-call scalar to `magnitude`
with the bound `spikenum = 2`; the positional call of `calculate_output`
would bind it to `spikenum` with `magnitude = 1`. -/
def vertical_spike_s2Fn : PyEffectFn ℚ :=
  ⟨fun xm ym m => Effect.vertical_spike xm ym 2 m,
   fun xm ym v => Effect.vertical_spike xm ym v 1⟩

/-- Claim C8.  First part: on integer-dtype grids with a positive spike
distance, `vertical_spike` returns `x' = x` and
`y' = y + |x mod (width div s) - (width div s) div 2| * magnitude * 2`
elementwise.  Second part: the spec §8 scenario — 4×4 distinct-pixel image,
pipeline `[vertical_spike(spikenum=2)]`, magnitude 1 — gathers every output
pixel from the source row displaced by `|x mod 2 - 1| * 2` (wrapped mod 4). -/
theorem vertical_spike_formula_and_scenario :
    (∀ (xm ym : Grid ℤ) (s : ℕ) (m : ℚ) (y x : ℕ), 0 < xm.width / s →
      (Effect.vertical_spikeInt xm ym s m).1.val y x = xm.val y x ∧
      (Effect.vertical_spikeInt xm ym s m).2.val y x
        = (ym.val y x : ℚ) +
            ((|xm.val y x % ((xm.width / s : ℕ) : ℤ) - ((xm.width / s / 2 : ℕ) : ℤ)| : ℤ) : ℚ)
              * m * 2) ∧
    (∀ y, y < 4 → ∀ x, x < 4 →
      (transform testImage4 [vertical_spike_s2Fn] [(1 : ℚ)]).pixel y x
        = testImage4.pixel ((y + (Int.natAbs ((x : ℤ) % 2 - 1)) * 2) % 4) x) := by
  constructor
  · intro xm ym s m y x hs
    refine ⟨rfl, ?_⟩
    have hsd : ((xm.width / s : ℕ) : ℤ) ≠ 0 := by exact_mod_cast hs.ne'
    simp only [Effect.vertical_spikeInt]
    rw [npIntMod, if_neg hsd]
  · intro y hy x hx
    interval_cases y <;> interval_cases x <;>
      · simp only [transform, resample, np_meshgrid, testImage4, vertical_spike_s2Fn,
          Effect.vertical_spike, List.zip, List.zipWith, List.foldl,
          pyFloorDiv, pyMod, wrapIdx, truncToInt]
        norm_num [Int.floor_eq_iff]

/-- Witness for C8: the formula part at a concrete 4-wide integer mesh with
`spikenum = 2`, `magnitude = 1` at entry `(0, 3)`, and the scenario part at
output pixel `(1, 2)`. -/
theorem vertical_spike_formula_and_scenario_witness :
    (0 < 4 / 2 ∧ (1 : ℕ) < 4 ∧ (2 : ℕ) < 4) ∧
    ((Effect.vertical_spikeInt ⟨4, 4, fun _ x => (x : ℤ)⟩ ⟨4, 4, fun y _ => (y : ℤ)⟩ 2 1).2.val 0 3
      = (((⟨4, 4, fun y _ => (y : ℤ)⟩ : Grid ℤ).val 0 3 : ℚ) +
          ((|(⟨4, 4, fun _ x => (x : ℤ)⟩ : Grid ℤ).val 0 3 % (((4 : ℕ) / 2 : ℕ) : ℤ)
              - (((4 : ℕ) / 2 / 2 : ℕ) : ℤ)| : ℤ) : ℚ) * 1 * 2)) ∧
    (transform testImage4 [vertical_spike_s2Fn] [(1 : ℚ)]).pixel 1 2
      = testImage4.pixel ((1 + (Int.natAbs ((2 : ℤ) % 2 - 1)) * 2) % 4) 2 :=
  ⟨⟨by decide, by decide, by decide⟩,
    (vertical_spike_formula_and_scenario.1 ⟨4, 4, fun _ x => (x : ℤ)⟩
      ⟨4, 4, fun y _ => (y : ℤ)⟩ 2 1 0 3 (by decide)).2,
    vertical_spike_formula_and_scenario.2 1 (by decide) 2 (by decide)⟩

/-- Claim C10, amended part: the two resampling paths agree whenever every
funclist entry's positional and keyword invocations coincide — which holds
for `Effect.explode`, whose third positional parameter *is* `magnitude` —
and the module-global image read by `calculate_output` is the transformer's
image.  Both then fold the same functions over the same base mesh and
resample the same image. -/
theorem transform_agrees_with_calculate_output_on_magnitude_third_effects
    {K : Type} [LinearOrderedField K] [FloorRing K]
    (img : PyImage) (fl : List (PyEffectFn K)) (mags : List K)
    (h : ∀ f ∈ fl, f.posCall = f.kwCall) :
    transform img fl mags
      = (calculate_output (mk_Motion_Transformer img fl img) img mags).2 := by
  have h' : ∀ q ∈ fl.zip mags, q.1.posCall = q.1.kwCall :=
    fun q hq => h q.1 (List.of_mem_zip hq).1
  simp only [transform, calculate_output, mk_Motion_Transformer, generate_mesh]
  rw [foldl_posCall_eq_foldl_kwCall _ h']

/-- Witness for C10's amended theorem: a 1×1 image with the funclist
`[explodeFn]` (both call conventions coincide) and magnitude 1. -/
theorem transform_agrees_with_calculate_output_witness :
    (∀ f ∈ [explodeFn], f.posCall = f.kwCall) ∧
    transform (⟨1, 1, fun _ _ => 0⟩ : PyImage) [explodeFn] [(1 : ℝ)]
      = (calculate_output (mk_Motion_Transformer (⟨1, 1, fun _ _ => 0⟩ : PyImage)
          [explodeFn] ⟨1, 1, fun _ _ => 0⟩) ⟨1, 1, fun _ _ => 0⟩ [(1 : ℝ)]).2 := by
  have hc : ∀ f ∈ [explodeFn], f.posCall = f.kwCall := by
    intro f hf
    rw [List.mem_singleton] at hf
    rw [hf]
    rfl
  exact ⟨hc, transform_agrees_with_calculate_output_on_magnitude_third_effects
    ⟨1, 1, fun _ _ => 0⟩ [explodeFn] [(1 : ℝ)] hc⟩

/-- Claim C10, counterexample part: with the funclist
`[Effect.horizontal_spike]` and magnitude 2 on the 10×10 distinct-pixel
image (module-global image equal to the bound image), `transform` — keyword
call, `spikenum = 5`, `magnitude = 2` — returns pixel `10` at
`(y, x) = (1, 0)`, while `Motion_Transformer.calculate_output` — positional
call, so `spikenum = 2`, `magnitude = 1` — returns pixel `12` there: the two
paths are not equivalent. -/
theorem transform_and_calculate_output_differ_on_spike :
    (transform testImage10 [horizontal_spikeFn ℚ] [(2 : ℚ)]).pixel 1 0 = 10 ∧
    ((calculate_output (mk_Motion_Transformer testImage10 [horizontal_spikeFn ℚ] testImage10)
        testImage10 [(2 : ℚ)]).2).pixel 1 0 = 12 ∧
    transform testImage10 [horizontal_spikeFn ℚ] [(2 : ℚ)]
      ≠ (calculate_output (mk_Motion_Transformer testImage10 [horizontal_spikeFn ℚ] testImage10)
          testImage10 [(2 : ℚ)]).2 := by
  have hne : ∀ a b : PyImage, a.pixel 1 0 = 10 → b.pixel 1 0 = 12 → a ≠ b := by
    intro a b ha hb he
    rw [he, hb] at ha
    exact absurd ha (by decide)
  refine ⟨?_, ?_, ?_⟩
  rotate_right
  · exact hne _ _ (by
      simp only [transform, resample, np_meshgrid, testImage10, horizontal_spikeFn,
        Effect.horizontal_spike, List.zip, List.zipWith, List.foldl,
        pyFloorDiv, pyMod, wrapIdx, truncToInt]
      norm_num [Int.floor_eq_iff]) (by
      simp only [calculate_output, mk_Motion_Transformer, generate_mesh, resample, np_meshgrid,
        testImage10, horizontal_spikeFn, Effect.horizontal_spike,
        List.zip, List.zipWith, List.foldl, pyFloorDiv, pyMod, wrapIdx, truncToInt]
      norm_num [Int.floor_eq_iff])
  · simp only [transform, resample, np_meshgrid, testImage10, horizontal_spikeFn,
      Effect.horizontal_spike, List.zip, List.zipWith, List.foldl,
      pyFloorDiv, pyMod, wrapIdx, truncToInt]
    norm_num [Int.floor_eq_iff]
  · simp only [calculate_output, mk_Motion_Transformer, generate_mesh, resample, np_meshgrid,
      testImage10, horizontal_spikeFn, Effect.horizontal_spike,
      List.zip, List.zipWith, List.foldl, pyFloorDiv, pyMod, wrapIdx, truncToInt]
    norm_num [Int.floor_eq_iff]

end Motions
